import Mathlib

set_option maxRecDepth 16384

/-!
Verification of the configuration-generation and service-registry core of the
`openai-tools` repository (Xray/VLESS proxy deployment helper).

The development shallowly embeds the relevant Python modules:

* `src/core/config_generator.py` and `xray-mcp-server/config_generator.py`
  (the `XrayConfig` / `CaddyConfig` dataclasses and `ConfigGenerator`),
* `src/core/nginx_generator.py` (the Nginx template renderers and
  `NginxServiceManager`, the directory-backed service registry),
* `xray-mcp-server/subscription.py` (`VlessNode`, `SubscriptionGenerator`),
* `xray-mcp-server/server.py` (the `generate_configs` tool entry point).

Python strings are modelled as Lean `String`, dictionaries/JSON values as an

inductive `JValue`, the registry directory as an association list from file
name to file content, and the two sources of randomness (`uuid.uuid4()` and
`generate_random_path()`) as explicitly passed parameters, so that every

definition is a pure, executable function of its inputs.
-/

/-! ## String utilities

Substring occurrence is the workhorse relation for the rendering claims: the
spec asserts that rendered configuration texts contain given fragments.
`ContainsSub s pat` states that `pat` occurs in `s`; `occursIn` is the
executable scanner used to decide concrete instances.
-/

/-- Substring occurrence: `pat` occurs contiguously in `s`. -/
def ContainsSub (s pat : String) : Prop :=
  ∃ a b : String, s = a ++ (pat ++ b)

/-- Executable check that `pat` is a prefix of `l` (over character lists). -/
def startsWithL : List Char → List Char → Bool
  | [], _ => true
  | _ :: _, [] => false
  | p :: ps, c :: cs => p == c && startsWithL ps cs

/-- Executable scan for an occurrence of `pat` anywhere in `l`. -/
def occursIn (pat : List Char) : List Char → Bool
  | [] => pat.isEmpty
  | c :: cs => startsWithL pat (c :: cs) || occursIn pat cs

/-- Executable substring test on strings. -/
def strContains (s pat : String) : Bool :=
  occursIn pat.toList s.toList

/-- Python `str.replace(old, new)` for a one-character pattern: every
occurrence of the character `old` is replaced by `new`. -/
def pyReplaceChar (old new : Char) (s : String) : String :=
  String.mk (s.data.map (fun c => if c = old then new else c))

/-- Python `sep.join(parts)`. -/
def joinWith (sep : String) : List String → String
  | [] => ""
  | [x] => x
  | x :: y :: rest => x ++ sep ++ joinWith sep (y :: rest)

/-- Python truthiness of an optional string (`None` and `""` are falsy). -/
def pyTruthy : Option String → Bool
  | none => false
  | some s => !(s == "")

/-! ## JSON values

`XrayConfig.to_dict` returns a Python dict that `json.dumps` serializes; the
dict is modelled as a `JValue` tree (a finite tree of objects, arrays,
strings and numbers always serializes to a well-formed JSON document). -/

/-- JSON value tree. -/
inductive JValue where
  | str (s : String)
  | num (n : Nat)
  | obj (fields : List (String × JValue))
  | arr (items : List JValue)

/-- Look up a key of a JSON object. -/
def JValue.field : JValue → String → Option JValue
  | .obj fields, k => (fields.find? (fun e => e.1 == k)).map (fun e => e.2)
  | _, _ => none

/-- Look up an index of a JSON array. -/
def JValue.item : JValue → Nat → Option JValue
  | .arr items, i => items[i]?
  | _, _ => none

/-! ## `config_generator.py`

The `XrayConfig` dataclass and `ConfigGenerator` class appear, with identical
bodies for the parts modelled here, in both `src/core/config_generator.py`
and `xray-mcp-server/config_generator.py`; the `CaddyConfig` dataclass only
in the latter.  The two nondeterministic defaults (`uuid.uuid4()` and
`generate_random_path()`) are passed in as the explicit arguments
`freshUuid` / `freshPath`. -/

/-- The `XrayConfig` dataclass: fields `domains`, `uuid`, `listen_port`,
`path`. -/
structure XrayConfig where
  domains : List String
  uuid : String
  listen_port : Nat
  path : String

/-- Embedding of `XrayConfig.to_dict`: the Xray `config.json` content, transcribed
literally from the Python dict literal. -/
def XrayConfig.to_dict (cfg : XrayConfig) : JValue :=
  .obj [
    ("log", .obj [("loglevel", .str "warning")]),
    ("inbounds", .arr [ .obj [
        ("listen", .str "127.0.0.1"),
        ("port", .num cfg.listen_port),
        ("protocol", .str "vless"),
        ("settings", .obj [
            ("clients", .arr [ .obj [("id", .str cfg.uuid), ("flow", .str "")] ]),
            ("decryption", .str "none")]),
        ("streamSettings", .obj [
            ("network", .str "xhttp"),
            ("xhttpSettings", .obj [("path", .str cfg.path), ("mode", .str "auto")])])
      ] ]),
    ("outbounds", .arr [ .obj [("protocol", .str "freedom"), ("tag", .str "direct")] ])
  ]

/-- The `CaddyConfig` dataclass: fields `domains`, `xray_port`, `xray_path`,
`cdn_host`. -/
structure CaddyConfig where
  domains : List String
  xray_port : Nat
  xray_path : String
  cdn_host : Option String

/-- One per-domain site block of `CaddyConfig.to_caddyfile`, transcribed from
the f-string template (literal braces written as escapes). -/
def caddyBlock (domain : String) (xray_path : String) (xray_port : Nat) : String :=
  domain ++ " \x7b\n    # XHTTP reverse proxy to Xray\n    " ++
  "@xhttp path " ++ xray_path ++ "*" ++
  "\n    " ++ "reverse_proxy @xhttp 127.0.0.1:" ++ toString xray_port ++
  " \x7b\n        flush_interval -1\n        header_up X-Forwarded-For \x7bremote_host\x7d\n    \x7d\n    \n    # Default response for camouflage\n    respond \"Welcome to " ++
  domain ++ "\" 200\n\x7d\n"

/-- Embedding of `CaddyConfig.to_caddyfile`: one block per domain, with an optional CDN
comment inserted in front, joined by `"\n".join(blocks)`. -/
def CaddyConfig.to_caddyfile (cfg : CaddyConfig) : String :=
  let blocks := cfg.domains.map (fun d => caddyBlock d cfg.xray_path cfg.xray_port)
  let blocks' :=
    if pyTruthy cfg.cdn_host then
      ("# CDN Host: " ++ cfg.cdn_host.getD "" ++ "\n") :: blocks
    else blocks
  joinWith "\n" blocks'

/-- The state constructed by `ConfigGenerator.__init__`. -/
structure ConfigGeneratorState where
  domains : List String
  xray_port : Nat
  xray_path : String
  cdn_host : Option String
  client_uuid : String
  xray_config : XrayConfig
  caddy_config : CaddyConfig

/-- Embedding of `ConfigGenerator.__init__(domains, xray_port, xray_path, client_uuid,
cdn_host)`.  `xray_path or generate_random_path()` and `client_uuid or
str(uuid.uuid4())` use Python truthiness (`None` and `""` both fall back to
the generated value).  The constructor body only assigns fields and contains
no validation and no `raise`; it is typed with an error channel so that the
spec's "fails with `InvalidInput`" is statable, and it returns `.ok` on
every input, including an empty domain list. -/
def ConfigGenerator.init (domains : List String) (xray_port : Nat)
    (xray_path client_uuid cdn_host : Option String)
    (freshPath freshUuid : String) : Except String ConfigGeneratorState :=
  let resolvedPath := if pyTruthy xray_path then xray_path.getD "" else freshPath
  let resolvedUuid := if pyTruthy client_uuid then client_uuid.getD "" else freshUuid
  .ok {
    domains := domains
    xray_port := xray_port
    xray_path := resolvedPath
    cdn_host := cdn_host
    client_uuid := resolvedUuid
    xray_config := ⟨domains, resolvedUuid, xray_port, resolvedPath⟩
    caddy_config := ⟨domains, xray_port, resolvedPath, cdn_host⟩ }

/-- Result dictionary of the `generate_configs` MCP tool (success case). -/
structure GenerateConfigsResult where
  uuid : String
  domains : List String
  xray_config : JValue
  caddyfile : String

/-- The `generate_configs` tool of `xray-mcp-server/server.py`: rejects an
empty domain list with an error dictionary before constructing anything,
otherwise constructs a `ConfigGenerator` and reports its artifacts. -/
def generate_configs (domains : List String) (xray_path : String)
    (xray_port : Nat) (freshPath freshUuid : String) :
    Except String GenerateConfigsResult :=
  if domains.isEmpty then .error "At least one domain is required"
  else
    match ConfigGenerator.init domains xray_port (some xray_path) none none
        freshPath freshUuid with
    | .error e => .error e
    | .ok g => .ok {
        uuid := g.client_uuid
        domains := domains
        xray_config := g.xray_config.to_dict
        caddyfile := g.caddy_config.to_caddyfile }

/-! ## `nginx_generator.py`

The two f-string templates are transcribed chunk by chunk; the chunks
concatenate to exactly the Python template text (literal braces written as
escapes, indentation and trailing spaces preserved).  `generate_xray_config`
is split at the interpolation points and at the fragment boundaries the
claims refer to. -/

/-- Certificate/key resolution shared by both templates: explicit paths are
used when both are truthy, otherwise the Let's Encrypt layout keyed by
domain. -/
def resolveCert (domain : String) (ssl_cert_path ssl_key_path : Option String) :
    String × String :=
  if pyTruthy ssl_cert_path && pyTruthy ssl_key_path then
    (ssl_cert_path.getD "", ssl_key_path.getD "")
  else
    ("/etc/letsencrypt/live/" ++ domain ++ "/fullchain.pem",
     "/etc/letsencrypt/live/" ++ domain ++ "/privkey.pem")

def nxChunk1 : String := "# Xray VLESS+XHTTP - "

def nxChunk2 : String := "\n# Backend: 127.0.0.1:"

def nxChunk3 : String :=
  "\n\nserver \x7b\n    listen 443 ssl http2;\n    listen [::]:443 ssl http2;\n    "

def nxChunk4 : String :=
  ";\n    \n    # SSL 证书\n    ssl_certificate "

def nxChunk5 : String := ";\n    ssl_certificate_key "

def nxChunk6 : String :=
  ";\n    \n    # SSL 配置\n    ssl_protocols TLSv1.2 TLSv1.3;\n    ssl_ciphers ECDHE-RSA-AES128-GCM-SHA256:HIGH:!aNULL:!MD5;\n    ssl_prefer_server_ciphers on;\n    \n    # Xray XHTTP 路径\n    "

def nxChunk7 : String := " \x7b\n        "

def nxChunk8 : String :=
  ";\n        proxy_http_version 1.1;\n        proxy_set_header Upgrade $http_upgrade;\n        proxy_set_header Connection \"upgrade\";\n        proxy_set_header Host $host;\n        proxy_set_header X-Real-IP $remote_addr;\n        proxy_set_header X-Forwarded-For $proxy_add_x_forwarded_for;\n        \n        # 禁用缓冲\n        proxy_buffering off;\n        proxy_cache off;\n    \x7d\n    \n    # 伪装页面\n    location / \x7b\n        return 200 \"Welcome\";\n        add_header Content-Type text/plain;\n    \x7d\n\x7d\n\n# HTTP 重定向\nserver \x7b\n    listen 80;\n    listen [::]:80;\n    "

def nxChunk9 : String :=
  ";\n    \n    location /.well-known/acme-challenge/ \x7b\n        root /var/www/html;\n    \x7d\n    \n    location / \x7b\n        return 301 https://$host$request_uri;\n    \x7d\n\x7d\n"

/-- Embedding of `generate_xray_config(domain, xray_port, xray_path, ssl_cert_path,
ssl_key_path)`: the Nginx server block for an Xray service, transcribed from
the f-string template of `src/core/nginx_generator.py`. -/
def generate_xray_config (domain : String) (xray_port : Nat) (xray_path : String)
    (ssl_cert_path ssl_key_path : Option String) : String :=
  let ck := resolveCert domain ssl_cert_path ssl_key_path
  nxChunk1 ++ domain ++ nxChunk2 ++ toString xray_port ++ nxChunk3 ++
  "server_name " ++ domain ++ nxChunk4 ++ ck.1 ++ nxChunk5 ++ ck.2 ++ nxChunk6 ++
  "location ~ ^" ++ xray_path ++ nxChunk7 ++
  "proxy_pass http://127.0.0.1:" ++ toString xray_port ++ nxChunk8 ++
  "server_name " ++ domain ++ nxChunk9

/-- Embedding of `generate_service_config(domain, backend_port, service_name,
location_path, ssl_cert_path, ssl_key_path, extra_config)`: the generic
(non-Xray) Nginx service template. -/
def generate_service_config (domain : String) (backend_port : Nat)
    (service_name : String) (location_path : String)
    (ssl_cert_path ssl_key_path : Option String) (extra_config : String) : String :=
  let ck := resolveCert domain ssl_cert_path ssl_key_path
  "# " ++ service_name ++ " - " ++ domain ++ "\n# Backend: 127.0.0.1:" ++
  toString backend_port ++ nxChunk3 ++ "server_name " ++ domain ++ nxChunk4 ++
  ck.1 ++ nxChunk5 ++ ck.2 ++
  ";\n    \n    # SSL 配置\n    ssl_protocols TLSv1.2 TLSv1.3;\n    ssl_ciphers ECDHE-RSA-AES128-GCM-SHA256:HIGH:!aNULL:!MD5;\n    ssl_prefer_server_ciphers on;\n    \n    # 反向代理到后端服务\n    location " ++
  location_path ++ " \x7b\n        proxy_pass http://127.0.0.1:" ++
  toString backend_port ++
  ";\n        proxy_http_version 1.1;\n        proxy_set_header Upgrade $http_upgrade;\n        proxy_set_header Connection \"upgrade\";\n        proxy_set_header Host $host;\n        proxy_set_header X-Real-IP $remote_addr;\n        proxy_set_header X-Forwarded-For $proxy_add_x_forwarded_for;\n        proxy_set_header X-Forwarded-Proto $scheme;\n        " ++
  extra_config ++
  "\n    \x7d\n\x7d\n\n# HTTP 重定向到 HTTPS\nserver \x7b\n    listen 80;\n    listen [::]:80;\n    " ++
  "server_name " ++ domain ++ nxChunk9

/-! ## The service registry (`NginxServiceManager`)

The registry directory is modelled as an association list from file name to
file content.  `fsWrite` is `Path.write_text` (create or truncate-overwrite
the one named file), `fsRead` observes one file's content, `fsRemove` is
`Path.unlink`. -/

/-- Content of the named file, if present. -/
def fsRead (dir : List (String × String)) (name : String) : Option String :=
  (dir.find? (fun e => e.1 == name)).map (fun e => e.2)

/-- Embedding of `write_text`: truncate/overwrite the named file, leaving all others
in place. -/
def fsWrite (dir : List (String × String)) (name content : String) :
    List (String × String) :=
  dir.filter (fun e => !(e.1 == name)) ++ [(name, content)]

/-- Whether the named file exists. -/
def fsExists (dir : List (String × String)) (name : String) : Bool :=
  dir.any (fun e => e.1 == name)

/-- Executable suffix test over character lists. -/
def endsWithL (suf l : List Char) : Bool :=
  startsWithL suf.reverse l.reverse

/-- The filename `NginxServiceManager.add_xray_service` computes:
`f"xray-{domain.replace('.', '-')}.conf"`. -/
def xrayServiceFilename (domain : String) : String :=
  "xray-" ++ pyReplaceChar '.' '-' domain ++ ".conf"

/-- Embedding of `NginxServiceManager.add_xray_service`: renders the Xray Nginx config,
writes it to the computed filename and returns that name (the source returns
the `Path` `conf_dir / filename`, whose final component — the part
`list_services` and `remove_service` operate on — is the filename). -/
def NginxServiceManager.add_xray_service (dir : List (String × String))
    (domain : String) (xray_port : Nat) (xray_path : String)
    (ssl_cert_path ssl_key_path : Option String) :
    List (String × String) × String :=
  let config := generate_xray_config domain xray_port xray_path ssl_cert_path ssl_key_path
  let fname := xrayServiceFilename domain
  (fsWrite dir fname config, fname)

/-- ASCII lowercasing of one character (Python `str.lower` restricted to the
ASCII range). -/
def charLower (c : Char) : Char :=
  if 'A' ≤ c ∧ c ≤ 'Z' then Char.ofNat (c.toNat + 32) else c

/-- The filename `NginxServiceManager.add_generic_service` computes:
`f"{service_name.lower().replace(' ', '-')}-{domain.replace('.', '-')}.conf"`. -/
def genericServiceFilename (service_name domain : String) : String :=
  pyReplaceChar ' ' '-' (String.mk (service_name.data.map charLower)) ++ "-" ++
  pyReplaceChar '.' '-' domain ++ ".conf"

/-- Embedding of `NginxServiceManager.add_generic_service`. -/
def NginxServiceManager.add_generic_service (dir : List (String × String))
    (domain : String) (backend_port : Nat) (service_name : String)
    (location_path : String) (ssl_cert_path ssl_key_path : Option String)
    (extra_config : String) : List (String × String) × String :=
  let config := generate_service_config domain backend_port service_name
    location_path ssl_cert_path ssl_key_path extra_config
  let fname := genericServiceFilename service_name domain
  (fsWrite dir fname config, fname)

/-- Embedding of `NginxServiceManager.remove_service`: delete the named file if it exists
and report whether a deletion happened; a missing file yields `false`, not an
exception. -/
def NginxServiceManager.remove_service (dir : List (String × String))
    (config_filename : String) : List (String × String) × Bool :=
  if fsExists dir config_filename then
    (dir.filter (fun e => !(e.1 == config_filename)), true)
  else
    (dir, false)

/-- Embedding of `NginxServiceManager.list_services`: the names of the `*.conf` files in
the registry directory. -/
def NginxServiceManager.list_services (dir : List (String × String)) :
    List String :=
  (dir.map Prod.fst).filter (fun n => endsWithL ".conf".toList n.toList)

/-! ## `subscription.py`

`urllib.parse.quote(s, safe='')` percent-encodes, over the UTF-8 bytes of
`s`, every character except the ASCII alphanumerics and `_.-~`, with
uppercase hex digits. -/

/-- The UTF-8 bytes of one character (scalar values only, as guaranteed by
`Char`). -/
def utf8Bytes (c : Char) : List Nat :=
  let v := c.toNat
  if v < 128 then [v]
  else if v < 2048 then [192 + v / 64, 128 + v % 64]
  else if v < 65536 then [224 + v / 4096, 128 + v / 64 % 64, 128 + v % 64]
  else [240 + v / 262144, 128 + v / 4096 % 64, 128 + v / 64 % 64, 128 + v % 64]

/-- The UTF-8 bytes of a string (Python `str.encode()`). -/
def strToUTF8 (s : String) : List Nat :=
  (s.data.map utf8Bytes).flatten

/-- Uppercase hex digit. -/
def hexDigit (n : Nat) : Char :=
  "0123456789ABCDEF".toList.getD n '0'

/-- Characters `quote` never encodes: ASCII alphanumerics and `_.-~`. -/
def isUnreserved (c : Char) : Bool :=
  c.isAlphanum || c == '_' || c == '.' || c == '-' || c == '~'

/-- Embedding of `urllib.parse.quote(s, safe='')`. -/
def urlquote (s : String) : String :=
  String.mk ((s.data.map (fun c =>
    if isUnreserved c then [c]
    else ((utf8Bytes c).map (fun b => ['%', hexDigit (b / 16), hexDigit (b % 16)])).flatten)).flatten)

/-- The `VlessNode` dataclass. -/
structure VlessNode where
  uuid : String
  domain : String
  port : Nat
  path : String
  security : String
  network : String
  sni : Option String

/-- Embedding of `VlessNode.name`: the node display name is the domain. -/
def VlessNode.name (n : VlessNode) : String := n.domain

/-- Embedding of `VlessNode.to_uri`: builds the parameter list (appending `sni` only when
the field is truthy), joins it with `&`, and assembles
`vless://uuid@host:port?params#name`. -/
def VlessNode.to_uri (n : VlessNode) : String :=
  let params := ["type=" ++ n.network, "security=" ++ n.security,
                 "path=" ++ urlquote n.path]
  let params := if pyTruthy n.sni then params ++ ["sni=" ++ n.sni.getD ""] else params
  let param_str := joinWith "&" params
  let nm := urlquote n.name
  "vless://" ++ n.uuid ++ "@" ++ n.domain ++ ":" ++ toString n.port ++ "?" ++
    param_str ++ "#" ++ nm

/-- The `SubscriptionGenerator` constructor state (`uuid`, `domains`, `port`,
`path`; the node list is derived). -/
structure SubscriptionGenerator where
  uuid : String
  domains : List String
  port : Nat
  path : String

/-- The `_nodes` list built in `SubscriptionGenerator.__init__`: one
`VlessNode` per domain, in input order, with the dataclass defaults
`security="tls"`, `network="xhttp"`, `sni=None`. -/
def SubscriptionGenerator.nodes (g : SubscriptionGenerator) : List VlessNode :=
  g.domains.map (fun d => ⟨g.uuid, d, g.port, g.path, "tls", "xhttp", none⟩)

/-- Embedding of `SubscriptionGenerator.generate_uris`. -/
def SubscriptionGenerator.generate_uris (g : SubscriptionGenerator) : List String :=
  g.nodes.map VlessNode.to_uri

/-- Embedding of `SubscriptionGenerator.generate_plain`: `"\n".join(uris)`. -/
def SubscriptionGenerator.generate_plain (g : SubscriptionGenerator) : String :=
  joinWith "\n" g.generate_uris

/-! Base64 (standard alphabet, with padding), as used by
`base64.b64encode`. -/
def b64Alphabet : List Char :=
  "ABCDEFGHIJKLMNOPQRSTUVWXYZabcdefghijklmnopqrstuvwxyz0123456789+/".toList

/-- Character for a 6-bit group. -/
def b64Char (n : Nat) : Char := b64Alphabet.getD n 'A'

/-- Position of a character in the base64 alphabet. -/
def b64Index (c : Char) : Option Nat :=
  List.findIdx? (fun x => x == c) b64Alphabet

/-- Base64-encode a byte list, three bytes to four characters, padding the
final partial group with `=`. -/
def b64EncodeChunks : List Nat → List Char
  | [] => []
  | [b0] => [b64Char (b0 / 4), b64Char (b0 % 4 * 16), '=', '=']
  | [b0, b1] => [b64Char (b0 / 4), b64Char (b0 % 4 * 16 + b1 / 16),
                 b64Char (b1 % 16 * 4), '=']
  | b0 :: b1 :: b2 :: rest =>
      b64Char (b0 / 4) :: b64Char (b0 % 4 * 16 + b1 / 16) ::
      b64Char (b1 % 16 * 4 + b2 / 64) :: b64Char (b2 % 64) :: b64EncodeChunks rest

/-- Base64-decode (standard alphabet, padding required). -/
def b64DecodeChunks : List Char → Option (List Nat)
  | [] => some []
  | c0 :: c1 :: c2 :: c3 :: rest =>
    match b64Index c0, b64Index c1 with
    | some s0, some s1 =>
      if c2 = '=' then
        if c3 = '=' ∧ rest = [] then some [s0 * 4 + s1 / 16] else none
      else
        match b64Index c2 with
        | some s2 =>
          if c3 = '=' then
            if rest = [] then some [s0 * 4 + s1 / 16, s1 % 16 * 16 + s2 / 4]
            else none
          else
            match b64Index c3, b64DecodeChunks rest with
            | some s3, some tail =>
                some ((s0 * 4 + s1 / 16) :: (s1 % 16 * 16 + s2 / 4) ::
                      (s2 % 4 * 64 + s3) :: tail)
            | _, _ => none
        | none => none
    | _, _ => none
  | _ => none

/-- Embedding of `SubscriptionGenerator.generate_base64`:
`base64.b64encode(content.encode()).decode()`. -/
def SubscriptionGenerator.generate_base64 (g : SubscriptionGenerator) : String :=
  String.mk (b64EncodeChunks (strToUTF8 g.generate_plain))


/-- The filename normalization as worded by the spec (for comparison with the
implementation): lowercase the domain and replace every character outside
`[a-z0-9-]` with `-`. -/
def specNormalizeDomain (domain : String) : String :=
  String.mk ((String.mk (domain.data.map charLower)).data.map
    (fun c => if ('a' ≤ c ∧ c ≤ 'z') ∨ ('0' ≤ c ∧ c ≤ '9') ∨ c = '-' then c else '-'))


/-- The subscription wiring of the `generate_configs` tool in
`xray-mcp-server/server.py`: `subscription_service.update_config(uuid=
config.client_uuid, domains=domains, path=xray_path)` — the port keeps its
default `443` and no CDN information is passed (the local
`SubscriptionGenerator` accepts none). -/
def serverSubscription (g : ConfigGeneratorState) : SubscriptionGenerator :=
  ⟨g.client_uuid, g.domains, 443, g.xray_path⟩

/-! ## General lemmas -/

theorem startsWithL_iff (pat l : List Char) :
    startsWithL pat l = true ↔ ∃ b, l = pat ++ b := by
  induction pat generalizing l with
  | nil => simp [startsWithL]
  | cons p ps ih =>
    cases l with
    | nil => simp [startsWithL]
    | cons c cs =>
      simp only [startsWithL, Bool.and_eq_true, beq_iff_eq, ih]
      constructor
      · rintro ⟨rfl, b, rfl⟩
        exact ⟨b, rfl⟩
      · rintro ⟨b, h⟩
        rw [List.cons_append] at h
        cases h
        exact ⟨rfl, b, rfl⟩

theorem occursIn_iff (pat l : List Char) :
    occursIn pat l = true ↔ ∃ a b, l = a ++ (pat ++ b) := by
  induction l with
  | nil =>
    simp only [occursIn, List.isEmpty_iff]
    constructor
    · rintro rfl
      exact ⟨[], [], rfl⟩
    · rintro ⟨a, b, h⟩
      rcases List.append_eq_nil.mp h.symm with ⟨rfl, h2⟩
      exact (List.append_eq_nil.mp h2).1
  | cons c cs ih =>
    simp only [occursIn, Bool.or_eq_true, startsWithL_iff, ih]
    constructor
    · rintro (⟨b, h⟩ | ⟨a, b, rfl⟩)
      · exact ⟨[], b, by simp [← h]⟩
      · exact ⟨c :: a, b, rfl⟩
    · rintro ⟨a, b, h⟩
      cases a with
      | nil => exact Or.inl ⟨b, by simpa using h⟩
      | cons a0 as =>
        rw [List.cons_append] at h
        cases h
        exact Or.inr ⟨as, b, rfl⟩

theorem strContains_iff (s pat : String) :
    strContains s pat = true ↔ ContainsSub s pat := by
  simp only [strContains, occursIn_iff, ContainsSub, String.toList]
  constructor
  · rintro ⟨a, b, h⟩
    refine ⟨⟨a⟩, ⟨b⟩, ?_⟩
    apply String.ext
    simpa [String.data_append] using h
  · rintro ⟨a, b, rfl⟩
    exact ⟨a.data, b.data, by simp [String.data_append]⟩

theorem containsSub_appL {s pat : String} (t : String) (h : ContainsSub s pat) :
    ContainsSub (t ++ s) pat := by
  rcases h with ⟨a, b, rfl⟩
  exact ⟨t ++ a, b, by rw [String.append_assoc]⟩

theorem containsSub_appR {s pat : String} (t : String) (h : ContainsSub s pat) :
    ContainsSub (s ++ t) pat := by
  rcases h with ⟨a, b, rfl⟩
  exact ⟨a, b ++ t, by simp [String.append_assoc]⟩

theorem containsSub_head (pat rest : String) : ContainsSub (pat ++ rest) pat :=
  ⟨"", rest, by rw [String.empty_append]⟩

theorem joinWith_mem (sep : String) (l : List String) (x : String) (hx : x ∈ l) :
    ∃ a b : String, joinWith sep l = a ++ (x ++ b) := by
  induction l with
  | nil => cases hx
  | cons y rest ih =>
    cases rest with
    | nil =>
      rcases List.mem_singleton.mp hx with rfl
      exact ⟨"", "", by simp [joinWith, String.empty_append, String.append_empty]⟩
    | cons z rest' =>
      rcases List.mem_cons.mp hx with rfl | hmem
      · exact ⟨"", sep ++ joinWith sep (z :: rest'), by
          simp [joinWith, String.empty_append, String.append_assoc]⟩
      · rcases ih hmem with ⟨a, b, hab⟩
        exact ⟨y ++ sep ++ a, b, by
          simp [joinWith, hab, String.append_assoc]⟩

theorem containsSub_joinWith {x pat : String} (sep : String) (l : List String)
    (hx : x ∈ l) (h : ContainsSub x pat) : ContainsSub (joinWith sep l) pat := by
  rcases joinWith_mem sep l x hx with ⟨a, b, hab⟩
  rcases h with ⟨a', b', rfl⟩
  exact ⟨a ++ a', b' ++ b, by simp [hab, String.append_assoc]⟩

theorem b64Index_b64Char : ∀ n, n < 64 → b64Index (b64Char n) = some n := by
  decide

theorem b64Char_ne_pad : ∀ n, n < 64 → ¬(b64Char n = '=') := by
  decide

theorem char_toNat_lt (c : Char) : c.toNat < 1114112 := by
  rcases c.valid with h | ⟨_, h2⟩
  · exact Nat.lt_trans h (by norm_num)
  · exact h2

theorem utf8Bytes_lt (c : Char) : ∀ b ∈ utf8Bytes c, b < 256 := by
  have hv := char_toNat_lt c
  intro b hb
  simp only [utf8Bytes] at hb
  split_ifs at hb <;> simp only [List.mem_cons, List.mem_singleton,
    List.not_mem_nil, or_false] at hb <;> omega

theorem strToUTF8_lt (s : String) : ∀ b ∈ strToUTF8 s, b < 256 := by
  intro b hb
  simp only [strToUTF8, List.mem_flatten, List.mem_map] at hb
  rcases hb with ⟨l, ⟨c, _, rfl⟩, hbl⟩
  exact utf8Bytes_lt c b hbl

theorem b64_roundtrip : ∀ (bs : List Nat), (∀ b ∈ bs, b < 256) →
    b64DecodeChunks (b64EncodeChunks bs) = some bs
  | [], _ => rfl
  | [b0], h => by
    have hb0 : b0 < 256 := h b0 (by simp)
    have h1 : b0 / 4 < 64 := by omega
    have h2 : b0 % 4 * 16 < 64 := by omega
    simp only [b64EncodeChunks, b64DecodeChunks, b64Index_b64Char _ h1,
      b64Index_b64Char _ h2, if_pos rfl, and_self, Option.some.injEq]
    simp only [if_true]
    simp
    omega
  | [b0, b1], h => by
    have hb0 : b0 < 256 := h b0 (by simp)
    have hb1 : b1 < 256 := h b1 (by simp)
    have h1 : b0 / 4 < 64 := by omega
    have h2 : b0 % 4 * 16 + b1 / 16 < 64 := by omega
    have h3 : b1 % 16 * 4 < 64 := by omega
    simp only [b64EncodeChunks, b64DecodeChunks, b64Index_b64Char _ h1,
      b64Index_b64Char _ h2, b64Index_b64Char _ h3,
      if_neg (b64Char_ne_pad _ h3), if_pos rfl, Option.some.injEq]
    simp only [if_true]
    simp
    omega
  | b0 :: b1 :: b2 :: rest, h => by
    have hb0 : b0 < 256 := h b0 (by simp)
    have hb1 : b1 < 256 := h b1 (by simp)
    have hb2 : b2 < 256 := h b2 (by simp)
    have h1 : b0 / 4 < 64 := by omega
    have h2 : b0 % 4 * 16 + b1 / 16 < 64 := by omega
    have h3 : b1 % 16 * 4 + b2 / 64 < 64 := by omega
    have h4 : b2 % 64 < 64 := by omega
    have ih := b64_roundtrip rest (fun b hb => h b (by simp [hb]))
    simp only [b64EncodeChunks, b64DecodeChunks, b64Index_b64Char _ h1,
      b64Index_b64Char _ h2, b64Index_b64Char _ h3, b64Index_b64Char _ h4,
      if_neg (b64Char_ne_pad _ h3), if_neg (b64Char_ne_pad _ h4), ih]
    have e1 : b0 / 4 * 4 + (b0 % 4 * 16 + b1 / 16) / 16 = b0 := by omega
    have e2 : (b0 % 4 * 16 + b1 / 16) % 16 * 16 + (b1 % 16 * 4 + b2 / 64) / 4 = b1 := by
      omega
    have e3 : (b1 % 16 * 4 + b2 / 64) % 4 * 64 + b2 % 64 = b2 := by omega
    simp [e1, e2, e3]

theorem containsSub_head2 (p1 p2 rest : String) :
    ContainsSub (p1 ++ (p2 ++ rest)) (p1 ++ p2) :=
  ⟨"", rest, by simp [String.append_assoc, String.empty_append]⟩

theorem containsSub_head3 (p1 p2 p3 rest : String) :
    ContainsSub (p1 ++ (p2 ++ (p3 ++ rest))) (p1 ++ p2 ++ p3) :=
  ⟨"", rest, by simp [String.append_assoc, String.empty_append]⟩

theorem find?_filter_comm {α : Type} (l : List α) (p q : α → Bool)
    (h : ∀ x, p x = true → q x = true) : (l.filter q).find? p = l.find? p := by
  induction l with
  | nil => rfl
  | cons e rest ih =>
    by_cases hq : q e = true
    · rw [List.filter_cons_of_pos hq]
      by_cases hp : p e = true
      · rw [List.find?_cons_of_pos _ hp, List.find?_cons_of_pos _ hp]
      · rw [List.find?_cons_of_neg _ (by simpa using hp),
          List.find?_cons_of_neg _ (by simpa using hp), ih]
    · have hp : p e = false := by
        rcases Bool.eq_false_or_eq_true (p e) with ht | hf
        · exact absurd (h e ht) hq
        · exact hf
      rw [List.filter_cons_of_neg (by simpa using hq),
        List.find?_cons_of_neg _ (by simp [hp]), ih]

theorem fsRead_fsWrite (dir : List (String × String)) (n c : String) (m : String) :
    fsRead (fsWrite dir n c) m = if m = n then some c else fsRead dir m := by
  simp only [fsRead, fsWrite, List.find?_append]
  by_cases hmn : m = n
  · subst hmn
    have hnone : (dir.filter (fun e => !(e.1 == m))).find? (fun e => e.1 == m) = none := by
      apply List.find?_eq_none.mpr
      intro e he
      have := (List.mem_filter.mp he).2
      simp at this ⊢
      exact this
    simp [hnone]
  · have hfind : (dir.filter (fun e => !(e.1 == n))).find? (fun e => e.1 == m) =
        dir.find? (fun e => e.1 == m) := by
      apply find?_filter_comm
      intro x hx
      simp at hx ⊢
      rw [hx]
      exact hmn
    have hnm : ¬(n = m) := fun h => hmn h.symm
    simp [hfind, hmn, hnm]

theorem fsRead_remove (dir : List (String × String)) (n m : String) :
    fsRead (NginxServiceManager.remove_service dir n).1 m =
      if m = n then none else fsRead dir m := by
  simp only [NginxServiceManager.remove_service]
  by_cases hex : fsExists dir n = true
  · simp only [hex, if_pos rfl]
    by_cases hmn : m = n
    · subst hmn
      have hnone : (dir.filter (fun e => !(e.1 == m))).find? (fun e => e.1 == m) = none := by
        apply List.find?_eq_none.mpr
        intro e he
        have := (List.mem_filter.mp he).2
        simp at this ⊢
        exact this
      simp [fsRead, hnone]
    · have hfind : (dir.filter (fun e => !(e.1 == n))).find? (fun e => e.1 == m) =
          dir.find? (fun e => e.1 == m) := by
        apply find?_filter_comm
        intro x hx
        simp at hx ⊢
        rw [hx]
        exact hmn
      simp [fsRead, hfind, hmn]
  · simp only [Bool.not_eq_true] at hex
    rw [hex]
    simp only [Bool.false_eq_true, if_false]
    by_cases hmn : m = n
    · subst hmn
      have : dir.find? (fun e => e.1 == m) = none := by
        apply List.find?_eq_none.mpr
        intro e he
        intro hc
        have : fsExists dir m = true := List.any_eq_true.mpr ⟨e, he, hc⟩
        rw [this] at hex
        cases hex
      simp [fsRead, this]
    · simp [hmn]

theorem remove_true_iff_exists (dir : List (String × String)) (n : String) :
    (NginxServiceManager.remove_service dir n).2 = true ↔ n ∈ dir.map Prod.fst := by
  simp only [NginxServiceManager.remove_service]
  by_cases hex : fsExists dir n = true
  · simp only [hex, if_pos rfl]
    constructor
    · intro _
      rcases List.any_eq_true.mp hex with ⟨e, he, hc⟩
      simp at hc
      exact List.mem_map.mpr ⟨e, he, hc⟩
    · intro _
      rfl
  · simp only [Bool.not_eq_true] at hex
    rw [hex]
    simp only [Bool.false_eq_true, if_false, false_iff]
    intro hmem
    rcases List.mem_map.mp hmem with ⟨e, he, hfst⟩
    have : fsExists dir n = true := List.any_eq_true.mpr ⟨e, he, by simp [hfst]⟩
    rw [this] at hex
    cases hex

/-- C5: for every registry state and filename, `remove_service(filename)`
returns `true` exactly when a file of that name exists in the registry
directory — and the file is then deleted — and returns `false` when no such
file exists (the operation is total: no exception is modelled because
`remove_service` guards the deletion with `exists()`). -/
theorem remove_service_spec (dir : List (String × String)) (filename : String) :
    ((NginxServiceManager.remove_service dir filename).2 = true ↔
      filename ∈ dir.map Prod.fst) ∧
    fsRead (NginxServiceManager.remove_service dir filename).1 filename = none := by
  refine ⟨remove_true_iff_exists dir filename, ?_⟩
  rw [fsRead_remove]
  simp

/-- C6: the registry's frame property: an add writes exactly the one file
with the computed name (truncating/overwriting its previous content — never
merging) and leaves every other file's content unchanged, and
`remove_service` deletes at most the named file and leaves every other file
unchanged. -/
theorem registry_frame (dir : List (String × String)) (domain : String)
    (xray_port backend_port : Nat) (xray_path : String) (cert key : Option String)
    (service_name location_path extra : String) (name other : String) :
    (fsRead (NginxServiceManager.add_xray_service dir domain xray_port xray_path
        cert key).1 other =
      if other = xrayServiceFilename domain
      then some (generate_xray_config domain xray_port xray_path cert key)
      else fsRead dir other) ∧
    (fsRead (NginxServiceManager.add_generic_service dir domain backend_port
        service_name location_path cert key extra).1 other =
      if other = genericServiceFilename service_name domain
      then some (generate_service_config domain backend_port service_name
        location_path cert key extra)
      else fsRead dir other) ∧
    (fsRead (NginxServiceManager.remove_service dir name).1 other =
      if other = name then none else fsRead dir other) := by
  refine ⟨?_, ?_, fsRead_remove dir name other⟩
  · simp only [NginxServiceManager.add_xray_service]
    exact fsRead_fsWrite dir _ _ other
  · simp only [NginxServiceManager.add_generic_service]
    exact fsRead_fsWrite dir _ _ other

/-- C3 counterexample: `ConfigGenerator.__init__` performs no input
validation — constructing it with an empty domain list succeeds (the
constructor body contains no validation and no `raise`), contradicting the
claim that every construction of the config builder with an empty domain
list fails with `InvalidInput`. -/
theorem configGenerator_empty_domains_succeeds :
    (ConfigGenerator.init [] 10000 none none none "/r" "u").isOk = true := rfl

/-- C3 (amended): the caller-level `generate_configs` tool rejects an empty
domain list with an immediate error result — constructing and writing
nothing — and succeeds for every non-empty domain list, while
`ConfigGenerator` construction itself succeeds on every domain list (it
performs no validation). -/
theorem generate_configs_empty_domains (domains : List String)
    (xray_path : String) (xray_port : Nat) (fp fu : String)
    (path2 uuid2 cdn2 : Option String) :
    ((generate_configs domains xray_path xray_port fp fu).isOk = !domains.isEmpty) ∧
    (generate_configs [] xray_path xray_port fp fu =
      .error "At least one domain is required") ∧
    (ConfigGenerator.init domains xray_port path2 uuid2 cdn2 fp fu).isOk = true := by
  refine ⟨?_, rfl, rfl⟩
  cases domains with
  | nil => rfl
  | cons d rest => rfl

/-- C4 counterexample: the implementation computes the registry filename with
`domain.replace('.', '-')` only — no lowercasing and no replacement of other
characters — so for the domain `"Secret.Example.com"` it produces
`xray-Secret-Example-com.conf`, not the `xray-secret-example-com.conf`
demanded by the claimed normalization rule. -/
theorem xray_filename_not_normalized :
    xrayServiceFilename "Secret.Example.com" = "xray-Secret-Example-com.conf" ∧
    "xray-" ++ specNormalizeDomain "Secret.Example.com" ++ ".conf" =
      "xray-secret-example-com.conf" ∧
    ¬(xrayServiceFilename "Secret.Example.com" =
      "xray-" ++ specNormalizeDomain "Secret.Example.com" ++ ".conf") := by
  refine ⟨by decide, by decide, by decide⟩

/-- C4 (amended): the registry's add operations compute the filename as
`{kindPrefix}-{domain with every '.' replaced by '-'}.conf` (the domain is
not lowercased and characters other than `'.'` are kept; for the generic
variant the kind part is the service name lowercased with spaces replaced by
`'-'`), write the rendered text under that name, and return that filename;
in particular adding an Xray service for `"test.example.com"` creates
exactly the entry `xray-test-example-com.conf` and returns that name. -/
theorem add_service_filename (dir : List (String × String)) (domain : String)
    (xray_port backend_port : Nat) (xray_path : String) (cert key : Option String)
    (service_name location_path extra : String) :
    ((NginxServiceManager.add_xray_service dir domain xray_port xray_path
        cert key).2 = "xray-" ++ pyReplaceChar '.' '-' domain ++ ".conf") ∧
    ((NginxServiceManager.add_generic_service dir domain backend_port
        service_name location_path cert key extra).2 =
      pyReplaceChar ' ' '-' (String.mk (service_name.data.map charLower)) ++ "-" ++
        pyReplaceChar '.' '-' domain ++ ".conf") ∧
    (fsRead (NginxServiceManager.add_xray_service dir domain xray_port xray_path
        cert key).1
        (NginxServiceManager.add_xray_service dir domain xray_port xray_path
          cert key).2 =
      some (generate_xray_config domain xray_port xray_path cert key)) ∧
    (NginxServiceManager.list_services
        (NginxServiceManager.add_xray_service [] "test.example.com" xray_port
          xray_path cert key).1 =
      ["xray-test-example-com.conf"]) ∧
    ((NginxServiceManager.add_xray_service [] "test.example.com" xray_port
        xray_path cert key).2 = "xray-test-example-com.conf") := by
  refine ⟨rfl, rfl, ?_, ?_, rfl⟩
  · simp only [NginxServiceManager.add_xray_service]
    rw [fsRead_fsWrite]
    simp
  · simp only [NginxServiceManager.add_xray_service, NginxServiceManager.list_services,
      fsWrite, List.filter_nil, List.nil_append, List.map_cons, List.map_nil]
    decide

/-- C1: for every `ConfigGenerator` constructed with domains, a listen port
and explicit (non-empty) path and client id, the proxy-engine configuration
— a finite tree of JSON objects/arrays/strings/numbers, which `json.dumps`
always renders as a well-formed JSON document — contains `log.loglevel`,
`inbounds[0].listen = "127.0.0.1"`, `inbounds[0].port = listenPort`,
`inbounds[0].protocol = "vless"`,
`inbounds[0].settings.clients[0].id = clientId`,
`inbounds[0].streamSettings.network = "xhttp"`,
`inbounds[0].streamSettings.xhttpSettings.path = path`, and a present
`outbounds[0].protocol`. -/
theorem xray_json_fields (domains : List String) (listenPort : Nat)
    (path clientId : String) (cdn : Option String) (fp fu : String)
    (st : ConfigGeneratorState)
    (hpath : path ≠ "") (hid : clientId ≠ "")
    (hinit : ConfigGenerator.init domains listenPort (some path) (some clientId)
      cdn fp fu = .ok st) :
    ((st.xray_config.to_dict.field "log").bind (fun j => j.field "loglevel") =
      some (.str "warning")) ∧
    (((st.xray_config.to_dict.field "inbounds").bind (fun j => j.item 0)).bind
        (fun j => j.field "listen") = some (.str "127.0.0.1")) ∧
    (((st.xray_config.to_dict.field "inbounds").bind (fun j => j.item 0)).bind
        (fun j => j.field "port") = some (.num listenPort)) ∧
    (((st.xray_config.to_dict.field "inbounds").bind (fun j => j.item 0)).bind
        (fun j => j.field "protocol") = some (.str "vless")) ∧
    ((((((st.xray_config.to_dict.field "inbounds").bind (fun j => j.item 0)).bind
        (fun j => j.field "settings")).bind (fun j => j.field "clients")).bind
        (fun j => j.item 0)).bind (fun j => j.field "id") = some (.str clientId)) ∧
    (((((st.xray_config.to_dict.field "inbounds").bind (fun j => j.item 0)).bind
        (fun j => j.field "streamSettings")).bind (fun j => j.field "network")) =
      some (.str "xhttp")) ∧
    ((((((st.xray_config.to_dict.field "inbounds").bind (fun j => j.item 0)).bind
        (fun j => j.field "streamSettings")).bind
        (fun j => j.field "xhttpSettings")).bind (fun j => j.field "path")) =
      some (.str path)) ∧
    ((((st.xray_config.to_dict.field "outbounds").bind (fun j => j.item 0)).bind
        (fun j => j.field "protocol")) = some (.str "freedom")) := by
  have hres : st.xray_config = ⟨domains, clientId, listenPort, path⟩ := by
    simp only [ConfigGenerator.init, pyTruthy, Except.ok.injEq] at hinit
    rw [← hinit]
    simp [hpath, hid]
  rw [hres]
  exact ⟨rfl, rfl, rfl, rfl, rfl, rfl, rfl, rfl⟩

/-- Witness for C1 at a concrete construction. -/
theorem xray_json_fields_witness :
    ("/test-path" : String) ≠ "" ∧ ("11111111-2222" : String) ≠ "" ∧
    ConfigGenerator.init ["proxy.example.com"] 10000 (some "/test-path")
      (some "11111111-2222") none "/rnd" "uuid-rnd" =
      .ok ⟨["proxy.example.com"], 10000, "/test-path", none, "11111111-2222",
        ⟨["proxy.example.com"], "11111111-2222", 10000, "/test-path"⟩,
        ⟨["proxy.example.com"], 10000, "/test-path", none⟩⟩ ∧
    ((((⟨["proxy.example.com"], "11111111-2222", 10000, "/test-path"⟩ :
        XrayConfig).to_dict.field "inbounds").bind (fun j => j.item 0)).bind
        (fun j => j.field "port") = some (.num 10000)) := by
  refine ⟨by decide, by decide, rfl, ?_⟩
  exact (xray_json_fields ["proxy.example.com"] 10000 "/test-path" "11111111-2222"
    none "/rnd" "uuid-rnd" _ (by decide) (by decide) rfl).2.2.1

theorem to_uri_eq (uuid domain : String) (port : Nat) (path : String)
    (sni : Option String) :
    VlessNode.to_uri ⟨uuid, domain, port, path, "tls", "xhttp", sni⟩ =
      "vless://" ++ uuid ++ "@" ++ domain ++ ":" ++ toString port ++
      "?type=xhttp&security=tls&path=" ++ urlquote path ++
      (if pyTruthy sni then "&sni=" ++ sni.getD "" else "") ++ "#" ++
      urlquote domain := by
  by_cases hsni : pyTruthy sni = true
  · simp only [VlessNode.to_uri, VlessNode.name, hsni, if_true, List.cons_append,
      List.nil_append, joinWith, String.append_assoc]
    rfl
  · simp only [Bool.not_eq_true] at hsni
    simp only [VlessNode.to_uri, VlessNode.name, hsni, Bool.false_eq_true, if_false,
      joinWith, String.append_assoc, String.append_empty]
    rfl

/-- C7 counterexample: with `sni` set to the empty string the `sni` query
parameter is omitted (Python truthiness: `if self.sni:` is false for `""`),
contradicting the claim that the parameter is present exactly when a `sni`
value is set. -/
theorem to_uri_empty_sni_counterexample :
    (VlessNode.to_uri ⟨"u", "d.example.com", 443, "/p", "tls", "xhttp", some ""⟩ =
      "vless://u@d.example.com:443?type=xhttp&security=tls&path=%2Fp#d.example.com") ∧
    strContains (VlessNode.to_uri
      ⟨"u", "d.example.com", 443, "/p", "tls", "xhttp", some ""⟩) "sni=" = false := by
  refine ⟨by decide, by decide⟩

/-- C7 (amended): for every subscription node built with the dataclass
defaults `security="tls"`, `network="xhttp"`, `to_uri` produces exactly
`vless://{clientId}@{domain}:{port}?type=xhttp&security=tls&path={urlEncode(path)}[&sni={sni}]#{urlEncode(domain)}`
with the query parameters in that order, the path and fragment URL-encoded,
and the `sni` parameter present exactly when a non-empty `sni` value is set
(a `sni` of `None` or `""` yields no parameter). -/
theorem to_uri_format (uuid domain : String) (port : Nat) (path : String)
    (sni : Option String) :
    VlessNode.to_uri ⟨uuid, domain, port, path, "tls", "xhttp", sni⟩ =
      "vless://" ++ uuid ++ "@" ++ domain ++ ":" ++ toString port ++
      "?type=xhttp&security=tls&path=" ++ urlquote path ++
      (if pyTruthy sni then "&sni=" ++ sni.getD "" else "") ++ "#" ++
      urlquote domain :=
  to_uri_eq uuid domain port path sni

/-- C8: `generate_plain` is the newline-join of the per-node URIs in input
domain order, and base64-decoding the `generate_base64` output (standard
alphabet, with padding) recovers exactly the UTF-8 bytes of
`generate_plain` — hence splitting the decoded content on newlines
reproduces exactly `generate_plain`'s lines. -/
theorem subscription_roundtrip (g : SubscriptionGenerator) :
    b64DecodeChunks (g.generate_base64).toList = some (strToUTF8 g.generate_plain) ∧
    g.generate_plain = joinWith "\n" (g.domains.map (fun d =>
      VlessNode.to_uri ⟨g.uuid, d, g.port, g.path, "tls", "xhttp", none⟩)) := by
  constructor
  · exact b64_roundtrip _ (strToUTF8_lt _)
  · simp only [SubscriptionGenerator.generate_plain,
      SubscriptionGenerator.generate_uris, SubscriptionGenerator.nodes,
      List.map_map]
    rfl

/-- C9 counterexample: a build with `cdnHost = "cdn.example.com"` and domain
`"origin.example.com"` (the `ConfigGenerator` stores the CDN host, and the
server's subscription wiring passes only uuid/domains/path) yields a
subscription URI that addresses the origin — not the CDN host — and carries
no `sni` parameter, so neither branch of the claimed disjunction holds. -/
theorem cdn_subscription_counterexample :
    ((ConfigGenerator.init ["origin.example.com"] 10000 (some "/p") (some "u")
        (some "cdn.example.com") "/r" "v").toOption.map
      (fun st => (serverSubscription st).generate_uris) =
      some ["vless://u@origin.example.com:443?type=xhttp&security=tls&path=%2Fp#origin.example.com"]) ∧
    strContains
      "vless://u@origin.example.com:443?type=xhttp&security=tls&path=%2Fp#origin.example.com"
      "cdn.example.com" = false ∧
    strContains
      "vless://u@origin.example.com:443?type=xhttp&security=tls&path=%2Fp#origin.example.com"
      "sni=" = false := by
  refine ⟨by decide, by decide, by decide⟩

/-- C9 (amended): the configured `cdnHost` does not influence the
subscription output at all: for every build, each subscription URI addresses
the origin domain at port 443 and carries no `sni` parameter (the
`SubscriptionGenerator` has no CDN input and never sets `sni`); the CDN host
is recorded only as a comment in the Caddyfile. -/
theorem cdn_ignored_in_subscription (domains : List String) (xray_port : Nat)
    (path uuid : String) (cdn : Option String) (fp fu : String)
    (st : ConfigGeneratorState) (hp : path ≠ "") (hu : uuid ≠ "")
    (hinit : ConfigGenerator.init domains xray_port (some path) (some uuid) cdn
      fp fu = .ok st) :
    (serverSubscription st).generate_uris = domains.map (fun d =>
      "vless://" ++ uuid ++ "@" ++ d ++ ":443?type=xhttp&security=tls&path=" ++
      urlquote path ++ "#" ++ urlquote d) := by
  simp only [ConfigGenerator.init, pyTruthy, Except.ok.injEq] at hinit
  subst hinit
  have h1 : (!(path == "")) = true := by simp [hp]
  have h2 : (!(uuid == "")) = true := by simp [hu]
  simp only [serverSubscription, SubscriptionGenerator.generate_uris,
    SubscriptionGenerator.nodes, List.map_map, h1, h2, if_true, Option.getD_some]
  apply List.map_congr_left
  intro d _
  simp only [Function.comp_apply]
  rw [to_uri_eq]
  simp only [pyTruthy, Bool.false_eq_true, if_false, String.append_empty,
    String.append_assoc]
  rfl

/-- Witness for C9 (amended), at the spec's CDN scenario. -/
theorem cdn_ignored_in_subscription_witness :
    ("/p" : String) ≠ "" ∧ ("u" : String) ≠ "" ∧
    ConfigGenerator.init ["origin.example.com"] 10000 (some "/p") (some "u")
      (some "cdn.example.com") "/r" "v" =
      .ok ⟨["origin.example.com"], 10000, "/p", some "cdn.example.com", "u",
        ⟨["origin.example.com"], "u", 10000, "/p"⟩,
        ⟨["origin.example.com"], 10000, "/p", some "cdn.example.com"⟩⟩ ∧
    (serverSubscription ⟨["origin.example.com"], 10000, "/p",
        some "cdn.example.com", "u", ⟨["origin.example.com"], "u", 10000, "/p"⟩,
        ⟨["origin.example.com"], 10000, "/p", some "cdn.example.com"⟩⟩).generate_uris =
      ["origin.example.com"].map (fun d =>
        "vless://" ++ "u" ++ "@" ++ d ++ ":443?type=xhttp&security=tls&path=" ++
        urlquote "/p" ++ "#" ++ urlquote d) := by
  refine ⟨by decide, by decide, rfl, ?_⟩
  exact cdn_ignored_in_subscription ["origin.example.com"] 10000 "/p" "u"
    (some "cdn.example.com") "/r" "v" _ (by decide) (by decide) rfl

theorem caddyfile_contains (cfg : CaddyConfig) (d : String) (hd : d ∈ cfg.domains)
    (pat : String) (h : ContainsSub (caddyBlock d cfg.xray_path cfg.xray_port) pat) :
    ContainsSub cfg.to_caddyfile pat := by
  simp only [CaddyConfig.to_caddyfile]
  refine containsSub_joinWith "\n" _ ?_ h
  by_cases hc : pyTruthy cfg.cdn_host = true
  · rw [if_pos hc]
    exact List.mem_cons_of_mem _ (List.mem_map_of_mem _ hd)
  · rw [if_neg hc]
    exact List.mem_map_of_mem _ hd

theorem caddyBlock_contains_matcher (d p : String) (q : Nat) :
    ContainsSub (caddyBlock d p q) ("@xhttp path " ++ p ++ "*") := by
  simp only [caddyBlock, String.append_assoc]
  apply containsSub_appL
  apply containsSub_appL
  exact containsSub_head3 _ _ _ _

theorem caddyBlock_contains_proxy (d p : String) (q : Nat) :
    ContainsSub (caddyBlock d p q) ("reverse_proxy @xhttp 127.0.0.1:" ++ toString q) := by
  simp only [caddyBlock, String.append_assoc]
  iterate 6 apply containsSub_appL
  exact containsSub_head2 _ _ _

/-- C10: the two artifacts a `ConfigGenerator` produces agree on the tunnel
parameters: there are a path `p` and a port `q` such that the Xray JSON's
`inbounds[0].streamSettings.xhttpSettings.path` is `p` and
`inbounds[0].port` is `q`, and for each configured domain the rendered
Caddyfile contains the matcher `@xhttp path {p}*` and the target
`reverse_proxy @xhttp 127.0.0.1:{q}` — whether the path was supplied
explicitly or auto-generated. -/
theorem artifacts_agree (domains : List String) (xray_port : Nat)
    (xray_path client_uuid cdn : Option String) (fp fu : String)
    (st : ConfigGeneratorState) (d : String)
    (hinit : ConfigGenerator.init domains xray_port xray_path client_uuid cdn
      fp fu = .ok st)
    (hd : d ∈ st.domains) :
    ∃ p q,
      ((((((st.xray_config.to_dict.field "inbounds").bind (fun j => j.item 0)).bind
          (fun j => j.field "streamSettings")).bind
          (fun j => j.field "xhttpSettings")).bind (fun j => j.field "path")) =
        some (.str p)) ∧
      ((((st.xray_config.to_dict.field "inbounds").bind (fun j => j.item 0)).bind
          (fun j => j.field "port")) = some (.num q)) ∧
      ContainsSub st.caddy_config.to_caddyfile ("@xhttp path " ++ p ++ "*") ∧
      ContainsSub st.caddy_config.to_caddyfile
        ("reverse_proxy @xhttp 127.0.0.1:" ++ toString q) := by
  simp only [ConfigGenerator.init, Except.ok.injEq] at hinit
  subst hinit
  refine ⟨_, xray_port, rfl, rfl, ?_, ?_⟩
  · exact caddyfile_contains _ d hd _ (caddyBlock_contains_matcher d _ xray_port)
  · exact caddyfile_contains _ d hd _ (caddyBlock_contains_proxy d _ xray_port)

/-- Witness for C10 at a concrete construction with an explicit path. -/
theorem artifacts_agree_witness :
    ConfigGenerator.init ["proxy.example.com"] 10000 (some "/test-path") (some "u")
      none "/r" "v" =
      .ok ⟨["proxy.example.com"], 10000, "/test-path", none, "u",
        ⟨["proxy.example.com"], "u", 10000, "/test-path"⟩,
        ⟨["proxy.example.com"], 10000, "/test-path", none⟩⟩ ∧
    ("proxy.example.com" : String) ∈ ["proxy.example.com"] ∧
    (∃ p q,
      (((((((⟨["proxy.example.com"], 10000, "/test-path", none, "u",
          ⟨["proxy.example.com"], "u", 10000, "/test-path"⟩,
          ⟨["proxy.example.com"], 10000, "/test-path", none⟩⟩ :
          ConfigGeneratorState).xray_config.to_dict.field "inbounds").bind
          (fun j => j.item 0)).bind
          (fun j => j.field "streamSettings")).bind
          (fun j => j.field "xhttpSettings")).bind (fun j => j.field "path")) =
        some (.str p)) ∧
      (((((⟨["proxy.example.com"], 10000, "/test-path", none, "u",
          ⟨["proxy.example.com"], "u", 10000, "/test-path"⟩,
          ⟨["proxy.example.com"], 10000, "/test-path", none⟩⟩ :
          ConfigGeneratorState).xray_config.to_dict.field "inbounds").bind
          (fun j => j.item 0)).bind
          (fun j => j.field "port")) = some (.num q)) ∧
      ContainsSub (⟨["proxy.example.com"], 10000, "/test-path", none⟩ :
          CaddyConfig).to_caddyfile ("@xhttp path " ++ p ++ "*") ∧
      ContainsSub (⟨["proxy.example.com"], 10000, "/test-path", none⟩ :
          CaddyConfig).to_caddyfile
        ("reverse_proxy @xhttp 127.0.0.1:" ++ toString q)) := by
  refine ⟨rfl, by decide, ?_⟩
  exact artifacts_agree ["proxy.example.com"] 10000 (some "/test-path") (some "u")
    none "/r" "v" _ "proxy.example.com" rfl (by decide)

/-- C2 counterexample: the Xray Nginx template forwards Upgrade, Connection,
Host, X-Real-IP and X-Forwarded-For, but — unlike the generic service
template — contains no `proxy_set_header X-Forwarded-Proto` line, so the
claim that the Xray rendering forwards the forwarded-proto header fails. -/
theorem xray_nginx_no_forwarded_proto :
    strContains (generate_xray_config "proxy.example.com" 10000 "/test-path"
      none none) "X-Forwarded-Proto" = false := by
  decide

/-- C2 (amended): for every domain, listen port and path, the Target A
(nginx) Xray rendering emits a location that anchors the path as a regex
prefix, proxies to `http://127.0.0.1:{listenPort}`, forwards the
upgrade/connection headers and the host, real-ip and forwarded-for headers
(the forwarded-proto header is not forwarded by this template), disables
response buffering and caching, and emits a root location returning a static
200 camouflage response; in particular for domain `"proxy.example.com"`,
port `10000`, path `"/test-path"` the output contains the literal substrings
`"proxy.example.com"`, `"listen 443"`, `"proxy_pass http://127.0.0.1:10000"`
and the location matcher `"location ~ ^/test-path"`. -/
theorem xray_nginx_render (domain : String) (port : Nat) (path : String)
    (cert key : Option String) :
    ContainsSub (generate_xray_config domain port path cert key)
      ("location ~ ^" ++ path) ∧
    ContainsSub (generate_xray_config domain port path cert key)
      ("proxy_pass http://127.0.0.1:" ++ toString port) ∧
    ContainsSub (generate_xray_config domain port path cert key)
      "proxy_set_header Upgrade $http_upgrade;" ∧
    ContainsSub (generate_xray_config domain port path cert key)
      "proxy_set_header Connection \"upgrade\";" ∧
    ContainsSub (generate_xray_config domain port path cert key)
      "proxy_set_header Host $host;" ∧
    ContainsSub (generate_xray_config domain port path cert key)
      "proxy_set_header X-Real-IP $remote_addr;" ∧
    ContainsSub (generate_xray_config domain port path cert key)
      "proxy_set_header X-Forwarded-For $proxy_add_x_forwarded_for;" ∧
    ContainsSub (generate_xray_config domain port path cert key)
      "proxy_buffering off;" ∧
    ContainsSub (generate_xray_config domain port path cert key)
      "proxy_cache off;" ∧
    ContainsSub (generate_xray_config domain port path cert key)
      "location / \x7b\n        return 200 \"Welcome\";\n        add_header Content-Type text/plain;\n    \x7d" ∧
    ContainsSub (generate_xray_config domain port path cert key)
      ("server_name " ++ domain) ∧
    ContainsSub (generate_xray_config domain port path cert key)
      "listen 443 ssl http2;" ∧
    ContainsSub (generate_xray_config "proxy.example.com" 10000 "/test-path"
      none none) "proxy.example.com" ∧
    ContainsSub (generate_xray_config "proxy.example.com" 10000 "/test-path"
      none none) "listen 443" ∧
    ContainsSub (generate_xray_config "proxy.example.com" 10000 "/test-path"
      none none) "proxy_pass http://127.0.0.1:10000" ∧
    ContainsSub (generate_xray_config "proxy.example.com" 10000 "/test-path"
      none none) "location ~ ^/test-path" := by
  refine ⟨?_, ?_, ?_, ?_, ?_, ?_, ?_, ?_, ?_, ?_, ?_, ?_,
    (strContains_iff _ _).mp (by decide), (strContains_iff _ _).mp (by decide),
    (strContains_iff _ _).mp (by decide), (strContains_iff _ _).mp (by decide)⟩
  · simp only [generate_xray_config, String.append_assoc]
    iterate 12 apply containsSub_appL
    exact containsSub_head2 _ _ _
  · simp only [generate_xray_config, String.append_assoc]
    iterate 15 apply containsSub_appL
    exact containsSub_head2 _ _ _
  · simp only [generate_xray_config, String.append_assoc]
    iterate 17 apply containsSub_appL
    exact containsSub_appR _ ((strContains_iff _ _).mp (by decide))
  · simp only [generate_xray_config, String.append_assoc]
    iterate 17 apply containsSub_appL
    exact containsSub_appR _ ((strContains_iff _ _).mp (by decide))
  · simp only [generate_xray_config, String.append_assoc]
    iterate 17 apply containsSub_appL
    exact containsSub_appR _ ((strContains_iff _ _).mp (by decide))
  · simp only [generate_xray_config, String.append_assoc]
    iterate 17 apply containsSub_appL
    exact containsSub_appR _ ((strContains_iff _ _).mp (by decide))
  · simp only [generate_xray_config, String.append_assoc]
    iterate 17 apply containsSub_appL
    exact containsSub_appR _ ((strContains_iff _ _).mp (by decide))
  · simp only [generate_xray_config, String.append_assoc]
    iterate 17 apply containsSub_appL
    exact containsSub_appR _ ((strContains_iff _ _).mp (by decide))
  · simp only [generate_xray_config, String.append_assoc]
    iterate 17 apply containsSub_appL
    exact containsSub_appR _ ((strContains_iff _ _).mp (by decide))
  · simp only [generate_xray_config, String.append_assoc]
    iterate 17 apply containsSub_appL
    exact containsSub_appR _ ((strContains_iff _ _).mp (by decide))
  · simp only [generate_xray_config, String.append_assoc]
    iterate 5 apply containsSub_appL
    exact containsSub_head2 _ _ _
  · simp only [generate_xray_config, String.append_assoc]
    iterate 4 apply containsSub_appL
    exact containsSub_appR _ ((strContains_iff _ _).mp (by decide))
